import Mathlib

/-!
Verification of the vehicle speed/weight model of the routing engine
(routing_common).  The repository slice contains the unit-test file
`routing_common/routing_common_tests/vehicle_model_test.cpp` and the header
`routing_common/pedestrian_model.hpp`; the implementation `vehicle_model.cpp`
itself is not in the slice, so the resolution engine below is modelled from
the specification, with each step cross-checked against every concrete
expectation of the unit tests (which are authoritative source code).  All
speeds are exact rationals; every double computed by the tests
(products of table values and halves/tenths) is exactly representable, so the
rational model agrees with the C++ doubles on all inputs considered here.
-/

namespace RoutingCommon

/-- Speed pair in km/h: a weight component (minimised by path search) and an
eta component (travel-time estimate).  Mirrors `SpeedKMpH` from
`vehicle_model.hpp`; the one-argument C++ constructor sets both components. -/
structure SpeedKMpH where
  weight : ℚ
  eta : ℚ
deriving DecidableEq, Repr

/-- Uniform speed: both components equal, as the single-argument C++
constructor `SpeedKMpH(double)` does. -/
def SpeedKMpH.uniform (v : ℚ) : SpeedKMpH := ⟨v, v⟩

/-- Multiplicative factor pair applied to a speed pair.  Mirrors
`SpeedFactor`; the one-argument constructor sets both components. -/
structure SpeedFactor where
  weightFactor : ℚ
  etaFactor : ℚ
deriving DecidableEq, Repr

/-- Identity factor: multiplying by it changes nothing. -/
def SpeedFactor.identity : SpeedFactor := ⟨1, 1⟩

/-- `operator*(SpeedKMpH, SpeedFactor)`: elementwise product. -/
instance : HMul SpeedKMpH SpeedFactor SpeedKMpH where
  hMul s f := ⟨s.weight * f.weightFactor, s.eta * f.etaFactor⟩

/-- `operator*(SpeedFactor, SpeedKMpH)`: elementwise product, the mirrored
overload. -/
instance : HMul SpeedFactor SpeedKMpH SpeedKMpH where
  hMul f s := ⟨s.weight * f.weightFactor, s.eta * f.etaFactor⟩

/-- In-city / out-of-city variant of a speed pair (`InOutCitySpeedKMpH`). -/
structure InOutCitySpeedKMpH where
  inCity : SpeedKMpH
  outCity : SpeedKMpH
deriving DecidableEq, Repr

/-- Select the branch for the given in-city flag. -/
def InOutCitySpeedKMpH.get (s : InOutCitySpeedKMpH) (isCityRoad : Bool) : SpeedKMpH :=
  if isCityRoad then s.inCity else s.outCity

/-- In-city / out-of-city variant of a factor pair (`InOutCityFactor`). -/
structure InOutCityFactor where
  inCity : SpeedFactor
  outCity : SpeedFactor
deriving DecidableEq, Repr

/-- Select the branch for the given in-city flag. -/
def InOutCityFactor.get (f : InOutCityFactor) (isCityRoad : Bool) : SpeedFactor :=
  if isCityRoad then f.inCity else f.outCity

/-- Road categories used by the test tables (`HighwayType`), restricted to the
categories the test limit table mentions. -/
inductive HighwayType where
  | HighwayTrunk
  | HighwayPrimary
  | HighwaySecondary
  | HighwayResidential
  | HighwayService
deriving DecidableEq, Repr

/-- Classification tags attached to features in the tests: the highway
category tags (with the bridge/tunnel refinements of secondary and the bare
`highway` tag), the one-way marker and the four `psurface` surface tags. -/
inductive Tag where
  | hwTrunk
  | hwPrimary
  | hwSecondary
  | hwSecondaryBridge
  | hwSecondaryTunnel
  | hwResidential
  | hwService
  | hwGeneric
  | oneway
  | pavedGood
  | pavedBad
  | unpavedGood
  | unpavedBad
deriving DecidableEq, Repr

/-- Modelled from the spec: the classificator truncates a tag to its first two
levels before the road-limit lookup, so the bridge and tunnel refinements of
`highway=secondary` map to the same category as the plain tag, the bare
`highway` tag and the non-highway tags map to no category.  Cross-checked
against the `Speed` and `Speed_MultiTypes` unit tests. -/
def tagCategory : Tag → Option HighwayType
  | .hwTrunk => some .HighwayTrunk
  | .hwPrimary => some .HighwayPrimary
  | .hwSecondary => some .HighwaySecondary
  | .hwSecondaryBridge => some .HighwaySecondary
  | .hwSecondaryTunnel => some .HighwaySecondary
  | .hwResidential => some .HighwayResidential
  | .hwService => some .HighwayService
  | _ => none

/-- Unit system of a posted speed limit (`measurement_utils::Units`). -/
inductive Units where
  | Metric
  | Imperial
deriving DecidableEq, Repr

/-- Modelled from the spec: conversion of a posted value to km/h by its unit
system (metric values are already km/h; imperial values are miles per hour,
one mile being 1.609344 km). -/
def toSpeedKmPH (u : Units) (v : ℕ) : ℚ :=
  match u with
  | .Metric => (v : ℚ)
  | .Imperial => (v : ℚ) * (1609344 / 1000000)

/-- Modelled from the spec: a posted speed limit (`Maxspeed`) with its unit
system, a forward value that may be unknown (no posted limit: the
`kInvalidSpeed` sentinel becomes `none`), and a backward value whose absence
means "same as forward". -/
structure Maxspeed where
  units : Units
  forward : Option ℕ
  backward : Option ℕ
deriving DecidableEq, Repr

/-- The empty maxspeed `Maxspeed()`: nothing posted in either direction. -/
def Maxspeed.empty : Maxspeed := ⟨.Metric, none, none⟩

/-- Modelled from the spec: the value active for a travel direction.  The
forward context reads the forward value; the backward context reads the
backward value, substituting the forward one when the backward value is
marked "same as forward". -/
def Maxspeed.activeValue (m : Maxspeed) (isForward : Bool) : Option ℕ :=
  if isForward then m.forward
  else
    match m.backward with
    | some b => some b
    | none => m.forward

/-- The value active for a direction, converted to km/h. -/
def Maxspeed.activeKmPH (m : Maxspeed) (isForward : Bool) : Option ℚ :=
  (m.activeValue isForward).map (toSpeedKmPH m.units)

/-- Contextual parameters of one speed query (`SpeedParams`): travel
direction, in-city flag, posted limit. -/
structure SpeedParams where
  forward : Bool
  inCity : Bool
  maxspeed : Maxspeed
deriving DecidableEq, Repr

/-- Association-list lookup with decidable key equality, mirroring the map
lookups of the C++ tables. -/
def lookupBy {α β : Type} [DecidableEq α] (k : α) : List (α × β) → Option β
  | [] => none
  | (a, b) :: rest => if a = k then some b else lookupBy k rest

/-- A vehicle model assembled from initialiser tables, as the `VehicleModel`
constructor does: the routability/pass-through limits, the surface-factor
table, the per-category base speeds and factors, and the class's offroad
fallback speed. -/
structure VehicleModelDef where
  limits : List (HighwayType × Bool)
  surfaces : List (Tag × SpeedFactor)
  speeds : List (HighwayType × InOutCitySpeedKMpH)
  factors : List (HighwayType × InOutCityFactor)
  offroadSpeed : SpeedKMpH

/-- Modelled from the spec: a tag is a category candidate iff its truncated
category is present in the limits table. -/
def VehicleModelDef.getHighwayType (m : VehicleModelDef) (t : Tag) : Option HighwayType :=
  match tagCategory t with
  | some c => if (lookupBy c m.limits).isSome then some c else none
  | none => none

/-- Modelled from the spec's category resolution, with the scan direction
corrected by the unit tests: the collection is scanned in its given order and
the FIRST candidate wins (the `DifferentSpeeds` test pins
`{secondary, primary}` to secondary and `{oneway, primary, secondary}` to
primary, which contradicts the spec's "last one encountered wins"). -/
def VehicleModelDef.resolveHighwayType (m : VehicleModelDef) : List Tag → Option HighwayType
  | [] => none
  | t :: ts =>
    match m.getHighwayType t with
    | some c => some c
    | none => m.resolveHighwayType ts

/-- Modelled from the spec: scan the tag set for surface-table matches with
the last match winning; the identity factor when no tag matches. -/
def VehicleModelDef.surfaceFactor (m : VehicleModelDef) (tags : List Tag) : SpeedFactor :=
  tags.foldl
    (fun acc t =>
      match lookupBy t m.surfaces with
      | some f => f
      | none => acc)
    SpeedFactor.identity

/-- The category's own factor for the city context, the identity if the factor
table has no entry for the category. -/
def VehicleModelDef.highwayFactor (m : VehicleModelDef) (c : HighwayType) (isCityRoad : Bool) :
    SpeedFactor :=
  match lookupBy c m.factors with
  | some f => f.get isCityRoad
  | none => SpeedFactor.identity

/-- The category's base speed for the city context.  Every category of the
test limits table has a speed entry; a missing entry is a static
configuration defect, mapped to the zero speed here. -/
def VehicleModelDef.baseSpeed (m : VehicleModelDef) (c : HighwayType) (isCityRoad : Bool) :
    SpeedKMpH :=
  match lookupBy c m.speeds with
  | some s => s.get isCityRoad
  | none => ⟨0, 0⟩

/-- Modelled from the spec's `resolveSpeed` (`VehicleModel::GetTypeSpeed`),
with the maxspeed step corrected by the unit tests: resolve the category
(offroad speed when none); when the posted limit is known for the active
direction, the converted value REPLACES the base speed in both components and
the category factor and surface factor are then applied (the
`MaxspeedFactor` test pins `{secondary, unpavedBad}` out of city with a
posted 90 to (18, 18) = 90 * (0.2, 0.2), not the spec's clamp
min((16, 14), 90) = (16, 14)); without a known limit, the base speed for the
city context is multiplied by the category factor and the surface factor. -/
def VehicleModelDef.getTypeSpeed (m : VehicleModelDef) (tags : List Tag) (p : SpeedParams) :
    SpeedKMpH :=
  match m.resolveHighwayType tags with
  | none => m.offroadSpeed
  | some c =>
    let hwF := m.highwayFactor c p.inCity
    let sF := m.surfaceFactor tags
    match p.maxspeed.activeKmPH p.forward with
    | some v => SpeedKMpH.uniform v * hwF * sF
    | none => m.baseSpeed c p.inCity * hwF * sF

/-- `VehicleModel::HasOneWayType`: true iff the dedicated one-way tag is
among the feature's tags. -/
def hasOneWayType (tags : List Tag) : Bool :=
  tags.contains Tag.oneway

/-- Modelled from the spec: pass-through permission of the resolved
category's limits-table entry; false when no category resolves. -/
def VehicleModelDef.hasPassThroughType (m : VehicleModelDef) (tags : List Tag) : Bool :=
  match m.resolveHighwayType tags with
  | some c => (lookupBy c m.limits).getD false
  | none => false

/-- `PedestrianModel::IsOneWay` from `pedestrian_model.hpp`: the override
ignores the feature entirely and returns false. -/
def pedestrianIsOneWay (_tags : List Tag) : Bool := false

/-- Follows the spec wording for comparison (category resolution, last match
wins): scan the collection in order, each candidate overwriting the previous
one. -/
def resolveLastWins (m : VehicleModelDef) (tags : List Tag) : Option HighwayType :=
  tags.foldl
    (fun acc t =>
      match m.getHighwayType t with
      | some c => some c
      | none => acc)
    none

/-- Follows the spec and claim wording for comparison (maxspeed as a clamp):
compute the factored base speed and then independently replace each component
by the minimum of its current value and the converted limit. -/
def specClampSpeed (m : VehicleModelDef) (tags : List Tag) (p : SpeedParams) : SpeedKMpH :=
  match m.resolveHighwayType tags with
  | none => m.offroadSpeed
  | some c =>
    let s := m.baseSpeed c p.inCity * m.highwayFactor c p.inCity * m.surfaceFactor tags
    match p.maxspeed.activeKmPH p.forward with
    | some v => ⟨min s.weight v, min s.eta v⟩
    | none => s

/-! ### The test tables (`vehicle_model_test.cpp`) -/

/-- `kDefaultSpeeds` of the test file. -/
def kDefaultSpeeds : List (HighwayType × InOutCitySpeedKMpH) :=
  [ (.HighwayTrunk, ⟨⟨100, 100⟩, ⟨150, 150⟩⟩),
    (.HighwayPrimary, ⟨⟨90, 90⟩, ⟨120, 120⟩⟩),
    (.HighwaySecondary, ⟨⟨80, 70⟩, ⟨80, 70⟩⟩),
    (.HighwayResidential, ⟨⟨45, 55⟩, ⟨50, 60⟩⟩),
    (.HighwayService, ⟨⟨47, 36⟩, ⟨50, 40⟩⟩) ]

/-- `kDefaultFactors` of the test file; the service category deliberately has
no entry. -/
def kDefaultFactors : List (HighwayType × InOutCityFactor) :=
  [ (.HighwayTrunk, ⟨⟨1, 1⟩, ⟨1, 1⟩⟩),
    (.HighwayPrimary, ⟨⟨1, 1⟩, ⟨1, 1⟩⟩),
    (.HighwaySecondary, ⟨⟨1, 1⟩, ⟨1, 1⟩⟩),
    (.HighwayResidential, ⟨⟨1/2, 1/2⟩, ⟨1/2, 1/2⟩⟩) ]

/-- `kTestLimits` of the test file: routable categories with their
pass-through flag; service is not pass-through-eligible. -/
def kTestLimits : List (HighwayType × Bool) :=
  [ (.HighwayTrunk, true),
    (.HighwayPrimary, true),
    (.HighwaySecondary, true),
    (.HighwayResidential, true),
    (.HighwayService, false) ]

/-- `kCarSurface` of the test file. -/
def kCarSurface : List (Tag × SpeedFactor) :=
  [ (.pavedGood, ⟨4/5, 9/10⟩),
    (.pavedBad, ⟨2/5, 1/2⟩),
    (.unpavedGood, ⟨3/5, 4/5⟩),
    (.unpavedBad, ⟨1/5, 1/5⟩) ]

/-- `VehicleModelStub` of the test file: the test tables with a zero offroad
speed. -/
def vehicleModelStub : VehicleModelDef :=
  ⟨kTestLimits, kCarSurface, kDefaultSpeeds, kDefaultFactors, ⟨0, 0⟩⟩

/-- Parameters of `CheckSpeed` for the in-city query. -/
def paramsInCity : SpeedParams := ⟨true, true, Maxspeed.empty⟩

/-- Parameters of `CheckSpeed` for the out-of-city query. -/
def paramsOutCity : SpeedParams := ⟨true, false, Maxspeed.empty⟩

end RoutingCommon

namespace RoutingCommon

/-- Defining equation of the speed-times-factor overload. -/
theorem SpeedKMpH.mul_factor_def (s : SpeedKMpH) (f : SpeedFactor) :
    s * f = ⟨s.weight * f.weightFactor, s.eta * f.etaFactor⟩ := rfl

/-- Defining equation of the factor-times-speed overload. -/
theorem SpeedFactor.mul_speed_def (f : SpeedFactor) (s : SpeedKMpH) :
    f * s = ⟨s.weight * f.weightFactor, s.eta * f.etaFactor⟩ := rfl

/-! ### Validation against every concrete expectation of the unit tests -/

/-- Unit test `Speed`: bridge and tunnel variants of secondary resolve to the
plain secondary speeds, and the single-category sets match the table. -/
theorem validate_Speed :
    vehicleModelStub.getTypeSpeed [.hwSecondaryBridge] paramsInCity = ⟨80, 70⟩ ∧
    vehicleModelStub.getTypeSpeed [.hwSecondaryBridge] paramsOutCity = ⟨80, 70⟩ ∧
    vehicleModelStub.getTypeSpeed [.hwSecondaryTunnel] paramsInCity = ⟨80, 70⟩ ∧
    vehicleModelStub.getTypeSpeed [.hwSecondaryTunnel] paramsOutCity = ⟨80, 70⟩ ∧
    vehicleModelStub.getTypeSpeed [.hwSecondary] paramsInCity = ⟨80, 70⟩ ∧
    vehicleModelStub.getTypeSpeed [.hwSecondary] paramsOutCity = ⟨80, 70⟩ ∧
    vehicleModelStub.getTypeSpeed [.hwTrunk] paramsInCity = ⟨100, 100⟩ ∧
    vehicleModelStub.getTypeSpeed [.hwTrunk] paramsOutCity = ⟨150, 150⟩ ∧
    vehicleModelStub.getTypeSpeed [.hwPrimary] paramsInCity = ⟨90, 90⟩ ∧
    vehicleModelStub.getTypeSpeed [.hwPrimary] paramsOutCity = ⟨120, 120⟩ ∧
    vehicleModelStub.getTypeSpeed [.hwResidential] paramsInCity = ⟨45/2, 55/2⟩ ∧
    vehicleModelStub.getTypeSpeed [.hwResidential] paramsOutCity = ⟨25, 30⟩ := by
  norm_num +decide [VehicleModelDef.getTypeSpeed, VehicleModelDef.resolveHighwayType,
    VehicleModelDef.getHighwayType, tagCategory, lookupBy, VehicleModelDef.surfaceFactor,
    VehicleModelDef.highwayFactor, VehicleModelDef.baseSpeed, vehicleModelStub, kTestLimits,
    kCarSurface, kDefaultSpeeds, kDefaultFactors, paramsInCity, paramsOutCity,
    Maxspeed.activeKmPH, Maxspeed.activeValue, Maxspeed.empty, toSpeedKmPH,
    SpeedKMpH.uniform, SpeedFactor.identity, InOutCitySpeedKMpH.get, InOutCityFactor.get,
    SpeedKMpH.mul_factor_def, List.foldl, hasOneWayType]

/-- Unit test `Speed_MultiTypes`: the bare highway tag is never a candidate,
in either position. -/
theorem validate_Speed_MultiTypes :
    vehicleModelStub.getTypeSpeed [.hwSecondaryTunnel, .hwSecondary] paramsInCity = ⟨80, 70⟩ ∧
    vehicleModelStub.getTypeSpeed [.hwSecondaryTunnel, .hwGeneric] paramsInCity = ⟨80, 70⟩ ∧
    vehicleModelStub.getTypeSpeed [.hwGeneric, .hwSecondaryTunnel] paramsInCity = ⟨80, 70⟩ ∧
    vehicleModelStub.getTypeSpeed [.hwSecondaryTunnel, .hwSecondary] paramsOutCity = ⟨80, 70⟩ ∧
    vehicleModelStub.getTypeSpeed [.hwSecondaryTunnel, .hwGeneric] paramsOutCity = ⟨80, 70⟩ ∧
    vehicleModelStub.getTypeSpeed [.hwGeneric, .hwSecondaryTunnel] paramsOutCity = ⟨80, 70⟩ := by
  norm_num +decide [VehicleModelDef.getTypeSpeed, VehicleModelDef.resolveHighwayType,
    VehicleModelDef.getHighwayType, tagCategory, lookupBy, VehicleModelDef.surfaceFactor,
    VehicleModelDef.highwayFactor, VehicleModelDef.baseSpeed, vehicleModelStub, kTestLimits,
    kCarSurface, kDefaultSpeeds, kDefaultFactors, paramsInCity, paramsOutCity,
    Maxspeed.activeKmPH, Maxspeed.activeValue, Maxspeed.empty, toSpeedKmPH,
    SpeedKMpH.uniform, SpeedFactor.identity, InOutCitySpeedKMpH.get, InOutCityFactor.get,
    SpeedKMpH.mul_factor_def, List.foldl, hasOneWayType]

/-- Unit test `OneWay`: the one-way tag does not change speeds and is
detected in either position. -/
theorem validate_OneWay :
    vehicleModelStub.getTypeSpeed [.hwSecondaryBridge, .oneway] paramsInCity = ⟨80, 70⟩ ∧
    vehicleModelStub.getTypeSpeed [.oneway, .hwSecondaryBridge] paramsInCity = ⟨80, 70⟩ ∧
    hasOneWayType [.hwSecondaryBridge, .oneway] = true ∧
    hasOneWayType [.oneway, .hwSecondaryBridge] = true ∧
    hasOneWayType [.oneway] = true := by
  norm_num +decide [VehicleModelDef.getTypeSpeed, VehicleModelDef.resolveHighwayType,
    VehicleModelDef.getHighwayType, tagCategory, lookupBy, VehicleModelDef.surfaceFactor,
    VehicleModelDef.highwayFactor, VehicleModelDef.baseSpeed, vehicleModelStub, kTestLimits,
    kCarSurface, kDefaultSpeeds, kDefaultFactors, paramsInCity, paramsOutCity,
    Maxspeed.activeKmPH, Maxspeed.activeValue, Maxspeed.empty, toSpeedKmPH,
    SpeedKMpH.uniform, SpeedFactor.identity, InOutCitySpeedKMpH.get, InOutCityFactor.get,
    SpeedKMpH.mul_factor_def, List.foldl, hasOneWayType]

/-- Unit test `DifferentSpeeds`: with several category tags the scan order
matters; the first candidate in iteration order wins. -/
theorem validate_DifferentSpeeds :
    vehicleModelStub.getTypeSpeed [.hwSecondary, .hwPrimary] paramsInCity = ⟨80, 70⟩ ∧
    vehicleModelStub.getTypeSpeed [.hwSecondary, .hwPrimary] paramsOutCity = ⟨80, 70⟩ ∧
    vehicleModelStub.getTypeSpeed [.oneway, .hwPrimary, .hwSecondary] paramsInCity = ⟨90, 90⟩ ∧
    vehicleModelStub.getTypeSpeed [.oneway, .hwPrimary, .hwSecondary] paramsOutCity = ⟨120, 120⟩ ∧
    hasOneWayType [.hwPrimary, .oneway, .hwSecondary] = true := by
  norm_num +decide [VehicleModelDef.getTypeSpeed, VehicleModelDef.resolveHighwayType,
    VehicleModelDef.getHighwayType, tagCategory, lookupBy, VehicleModelDef.surfaceFactor,
    VehicleModelDef.highwayFactor, VehicleModelDef.baseSpeed, vehicleModelStub, kTestLimits,
    kCarSurface, kDefaultSpeeds, kDefaultFactors, paramsInCity, paramsOutCity,
    Maxspeed.activeKmPH, Maxspeed.activeValue, Maxspeed.empty, toSpeedKmPH,
    SpeedKMpH.uniform, SpeedFactor.identity, InOutCitySpeedKMpH.get, InOutCityFactor.get,
    SpeedKMpH.mul_factor_def, List.foldl, hasOneWayType]

/-- Unit test `PassThroughAllowed`. -/
theorem validate_PassThroughAllowed :
    vehicleModelStub.hasPassThroughType [.hwSecondary] = true ∧
    vehicleModelStub.hasPassThroughType [.hwPrimary] = true ∧
    vehicleModelStub.hasPassThroughType [.hwService] = false := by
  decide

/-- Unit test `SpeedFactor`: surface factors multiply the factored base
speed, in and out of city. -/
theorem validate_SpeedFactor :
    vehicleModelStub.getTypeSpeed [.hwSecondary, .pavedGood] paramsInCity = ⟨64, 63⟩ ∧
    vehicleModelStub.getTypeSpeed [.hwSecondary, .pavedGood] paramsOutCity = ⟨64, 63⟩ ∧
    vehicleModelStub.getTypeSpeed [.hwSecondary, .pavedBad] paramsInCity = ⟨32, 35⟩ ∧
    vehicleModelStub.getTypeSpeed [.hwSecondary, .pavedBad] paramsOutCity = ⟨32, 35⟩ ∧
    vehicleModelStub.getTypeSpeed [.hwSecondary, .unpavedGood] paramsInCity = ⟨48, 56⟩ ∧
    vehicleModelStub.getTypeSpeed [.hwSecondary, .unpavedGood] paramsOutCity = ⟨48, 56⟩ ∧
    vehicleModelStub.getTypeSpeed [.hwSecondary, .unpavedBad] paramsInCity = ⟨16, 14⟩ ∧
    vehicleModelStub.getTypeSpeed [.hwSecondary, .unpavedBad] paramsOutCity = ⟨16, 14⟩ ∧
    vehicleModelStub.getTypeSpeed [.hwResidential, .pavedGood] paramsInCity = ⟨18, 99/4⟩ ∧
    vehicleModelStub.getTypeSpeed [.hwResidential, .pavedGood] paramsOutCity = ⟨20, 27⟩ ∧
    vehicleModelStub.getTypeSpeed [.hwResidential, .pavedBad] paramsInCity = ⟨9, 55/4⟩ ∧
    vehicleModelStub.getTypeSpeed [.hwResidential, .pavedBad] paramsOutCity = ⟨10, 15⟩ ∧
    vehicleModelStub.getTypeSpeed [.hwResidential, .unpavedGood] paramsInCity = ⟨27/2, 22⟩ ∧
    vehicleModelStub.getTypeSpeed [.hwResidential, .unpavedGood] paramsOutCity = ⟨15, 24⟩ ∧
    vehicleModelStub.getTypeSpeed [.hwResidential, .unpavedBad] paramsInCity = ⟨9/2, 11/2⟩ ∧
    vehicleModelStub.getTypeSpeed [.hwResidential, .unpavedBad] paramsOutCity = ⟨5, 6⟩ := by
  norm_num +decide [VehicleModelDef.getTypeSpeed, VehicleModelDef.resolveHighwayType,
    VehicleModelDef.getHighwayType, tagCategory, lookupBy, VehicleModelDef.surfaceFactor,
    VehicleModelDef.highwayFactor, VehicleModelDef.baseSpeed, vehicleModelStub, kTestLimits,
    kCarSurface, kDefaultSpeeds, kDefaultFactors, paramsInCity, paramsOutCity,
    Maxspeed.activeKmPH, Maxspeed.activeValue, Maxspeed.empty, toSpeedKmPH,
    SpeedKMpH.uniform, SpeedFactor.identity, InOutCitySpeedKMpH.get, InOutCityFactor.get,
    SpeedKMpH.mul_factor_def, List.foldl, hasOneWayType]

/-- Unit test `MaxspeedFactor`: a known posted limit replaces the base speed
and the factors then apply. -/
theorem validate_MaxspeedFactor :
    vehicleModelStub.getTypeSpeed [.hwSecondary, .unpavedBad]
      ⟨true, false, ⟨.Metric, some 90, none⟩⟩ = ⟨18, 18⟩ ∧
    vehicleModelStub.getTypeSpeed [.hwPrimary, .pavedGood]
      ⟨true, false, ⟨.Metric, some 90, none⟩⟩ = ⟨72, 81⟩ ∧
    vehicleModelStub.getTypeSpeed [.hwPrimary, .pavedGood]
      ⟨true, false, ⟨.Metric, some 90, some 70⟩⟩ = ⟨72, 81⟩ ∧
    vehicleModelStub.getTypeSpeed [.hwPrimary, .pavedGood]
      ⟨false, false, ⟨.Metric, some 90, some 70⟩⟩ = ⟨56, 63⟩ ∧
    vehicleModelStub.getTypeSpeed [.hwResidential, .pavedGood]
      ⟨true, false, ⟨.Metric, some 60, none⟩⟩ = ⟨24, 27⟩ := by
  norm_num +decide [VehicleModelDef.getTypeSpeed, VehicleModelDef.resolveHighwayType,
    VehicleModelDef.getHighwayType, tagCategory, lookupBy, VehicleModelDef.surfaceFactor,
    VehicleModelDef.highwayFactor, VehicleModelDef.baseSpeed, vehicleModelStub, kTestLimits,
    kCarSurface, kDefaultSpeeds, kDefaultFactors, paramsInCity, paramsOutCity,
    Maxspeed.activeKmPH, Maxspeed.activeValue, Maxspeed.empty, toSpeedKmPH,
    SpeedKMpH.uniform, SpeedFactor.identity, InOutCitySpeedKMpH.get, InOutCityFactor.get,
    SpeedKMpH.mul_factor_def, List.foldl, hasOneWayType]

end RoutingCommon

namespace RoutingCommon

/-! ### General lemmas about the resolution engine -/

/-- The speed query reads its parameters only through the in-city flag and
the limit active for the travel direction. -/
theorem getTypeSpeed_congr (m : VehicleModelDef) (tags : List Tag) (p q : SpeedParams)
    (hc : p.inCity = q.inCity)
    (hm : p.maxspeed.activeKmPH p.forward = q.maxspeed.activeKmPH q.forward) :
    m.getTypeSpeed tags p = m.getTypeSpeed tags q := by
  cases hr : m.resolveHighwayType tags <;>
    simp [VehicleModelDef.getTypeSpeed, hr, hc, hm]

/-- With a category resolved and a limit known for the active direction, the
query returns the converted limit (uniform in both components) scaled by the
category factor and the surface factor. -/
theorem getTypeSpeed_of_maxspeed (m : VehicleModelDef) (tags : List Tag) (p : SpeedParams)
    (c : HighwayType) (v : ℚ)
    (hc : m.resolveHighwayType tags = some c)
    (hv : p.maxspeed.activeKmPH p.forward = some v) :
    m.getTypeSpeed tags p =
      SpeedKMpH.uniform v * m.highwayFactor c p.inCity * m.surfaceFactor tags := by
  simp [VehicleModelDef.getTypeSpeed, hc, hv]

/-- With a category resolved and no limit known for the active direction, the
query returns the base speed for the city context scaled by the category
factor and the surface factor. -/
theorem getTypeSpeed_of_no_maxspeed (m : VehicleModelDef) (tags : List Tag) (p : SpeedParams)
    (c : HighwayType)
    (hc : m.resolveHighwayType tags = some c)
    (hv : p.maxspeed.activeKmPH p.forward = none) :
    m.getTypeSpeed tags p =
      m.baseSpeed c p.inCity * m.highwayFactor c p.inCity * m.surfaceFactor tags := by
  simp [VehicleModelDef.getTypeSpeed, hc, hv]

/-! ### Claim theorems -/

/-- C5: a tag set in which no tag resolves to a category of the limits table
gets the vehicle class's fixed offroad speed, for every direction, in-city
flag and maxspeed, the factor and maxspeed steps being skipped entirely. -/
theorem no_category_offroad (m : VehicleModelDef) (tags : List Tag) (p : SpeedParams)
    (h : m.resolveHighwayType tags = none) :
    m.getTypeSpeed tags p = m.offroadSpeed := by
  simp [VehicleModelDef.getTypeSpeed, h]

/-- Witness for C5: a one-way plus surface tag set with a posted limit and
every other context still gets the stub's offroad speed. -/
theorem no_category_offroad_witness :
    vehicleModelStub.getTypeSpeed [Tag.oneway, Tag.pavedGood]
        ⟨true, true, ⟨Units.Metric, some 60, none⟩⟩ = vehicleModelStub.offroadSpeed :=
  no_category_offroad vehicleModelStub [Tag.oneway, Tag.pavedGood]
    ⟨true, true, ⟨Units.Metric, some 60, none⟩⟩ (by decide)

/-- C6: the one-way classification is true iff the dedicated one-way tag is
in the set, it is invariant under permutations of the tag set, and both
orders of the bridge/one-way pair of the unit test are detected. -/
theorem oneway_iff_mem :
    (∀ tags : List Tag, hasOneWayType tags = true ↔ Tag.oneway ∈ tags) ∧
    (∀ tags tags2 : List Tag, tags.Perm tags2 → hasOneWayType tags = hasOneWayType tags2) ∧
    hasOneWayType [Tag.hwSecondaryBridge, Tag.oneway] = true ∧
    hasOneWayType [Tag.oneway, Tag.hwSecondaryBridge] = true := by
  refine ⟨fun tags => List.elem_iff, fun tags tags2 h => ?_, by decide, by decide⟩
  rw [Bool.eq_iff_iff]
  show List.elem Tag.oneway tags = true ↔ List.elem Tag.oneway tags2 = true
  rw [List.elem_iff, List.elem_iff]
  exact h.mem_iff

/-- Witness for C6: the permutation part applied to the two orders of the
bridge/one-way pair. -/
theorem oneway_iff_mem_witness :
    hasOneWayType [Tag.hwSecondaryBridge, Tag.oneway] =
      hasOneWayType [Tag.oneway, Tag.hwSecondaryBridge] :=
  oneway_iff_mem.2.1 [Tag.hwSecondaryBridge, Tag.oneway] [Tag.oneway, Tag.hwSecondaryBridge]
    (by decide)

/-- C7 counterexample: the pass-through classification is not a function of
which categories the set CONTAINS: the set with service before secondary
contains the pass-through-eligible secondary category, yet the query answers
false, because only the resolved (first) category is consulted. -/
theorem pass_through_any_refuted :
    vehicleModelStub.hasPassThroughType [Tag.hwService, Tag.hwSecondary] = false ∧
    Tag.hwSecondary ∈ [Tag.hwService, Tag.hwSecondary] ∧
    tagCategory Tag.hwSecondary = some HighwayType.HighwaySecondary ∧
    lookupBy HighwayType.HighwaySecondary vehicleModelStub.limits = some true := by
  decide

/-- C7 (amended): pass-through is true iff the RESOLVED category's
limits-table entry marks it eligible; on the test limits table the secondary
and primary singletons answer true and the service singleton false. -/
theorem pass_through_resolved :
    (∀ (m : VehicleModelDef) (tags : List Tag),
        m.hasPassThroughType tags = true ↔
          ∃ c, m.resolveHighwayType tags = some c ∧ lookupBy c m.limits = some true) ∧
    vehicleModelStub.hasPassThroughType [Tag.hwSecondary] = true ∧
    vehicleModelStub.hasPassThroughType [Tag.hwPrimary] = true ∧
    vehicleModelStub.hasPassThroughType [Tag.hwService] = false := by
  refine ⟨fun m tags => ?_, by decide, by decide, by decide⟩
  cases hr : m.resolveHighwayType tags with
  | none => simp [VehicleModelDef.hasPassThroughType, hr]
  | some c =>
    cases hl : lookupBy c m.limits with
    | none => simp [VehicleModelDef.hasPassThroughType, hr, hl]
    | some b => cases b <;> simp [VehicleModelDef.hasPassThroughType, hr, hl]

/-- C8: the two multiplication overloads agree (commutativity) and each
component of the product is the elementwise product. -/
theorem speed_factor_mul_comm (s : SpeedKMpH) (f : SpeedFactor) :
    s * f = f * s ∧
    (s * f).weight = s.weight * f.weightFactor ∧
    (s * f).eta = s.eta * f.etaFactor :=
  ⟨rfl, rfl, rfl⟩

/-- C9: the pedestrian override reports every feature as not one-way,
in particular also a feature carrying the dedicated one-way tag. -/
theorem pedestrian_never_oneway (tags : List Tag) :
    pedestrianIsOneWay tags = false ∧ pedestrianIsOneWay (Tag.oneway :: tags) = false :=
  ⟨rfl, rfl⟩

end RoutingCommon

namespace RoutingCommon

/-! #### Positivity of the stub factor tables -/

/-- Every category factor of the stub tables is positive in both components
(the identity is used for categories without an entry). -/
theorem stub_highwayFactor_pos (c : HighwayType) (city : Bool) :
    0 < (vehicleModelStub.highwayFactor c city).weightFactor ∧
    0 < (vehicleModelStub.highwayFactor c city).etaFactor := by
  cases c <;> cases city <;>
    norm_num +decide [VehicleModelDef.highwayFactor, vehicleModelStub, kDefaultFactors,
      lookupBy, InOutCityFactor.get, SpeedFactor.identity]

/-- The surface-factor scan keeps a positive accumulator positive: every
factor of the stub surface table is positive in both components. -/
theorem stub_surfaceFactor_fold_pos :
    ∀ (ts : List Tag) (acc : SpeedFactor), 0 < acc.weightFactor → 0 < acc.etaFactor →
      0 < ((ts.foldl
        (fun a t =>
          match lookupBy t vehicleModelStub.surfaces with
          | some f => f
          | none => a)
        acc)).weightFactor ∧
      0 < ((ts.foldl
        (fun a t =>
          match lookupBy t vehicleModelStub.surfaces with
          | some f => f
          | none => a)
        acc)).etaFactor := by
  intro ts
  induction ts with
  | nil => exact fun acc h1 h2 => ⟨h1, h2⟩
  | cons t ts ih =>
    intro acc h1 h2
    simp only [List.foldl]
    apply ih
    · cases t <;>
        first
          | exact h1
          | norm_num +decide [lookupBy, vehicleModelStub, kCarSurface]
    · cases t <;>
        first
          | exact h2
          | norm_num +decide [lookupBy, vehicleModelStub, kCarSurface]

/-- The surface factor of any tag set is positive in both components. -/
theorem stub_surfaceFactor_pos (tags : List Tag) :
    0 < (vehicleModelStub.surfaceFactor tags).weightFactor ∧
    0 < (vehicleModelStub.surfaceFactor tags).etaFactor := by
  have h := stub_surfaceFactor_fold_pos tags SpeedFactor.identity
    (by norm_num [SpeedFactor.identity]) (by norm_num [SpeedFactor.identity])
  simpa [VehicleModelDef.surfaceFactor] using h

end RoutingCommon

namespace RoutingCommon

/-- C1 counterexample: the posted limit is NOT a clamp taken after the
surface factor.  On the secondary/unpaved-bad set out of city, the value
without a limit is (16, 14); the claimed clamp semantics with a posted 90
therefore also yields (16, 14), but the engine (pinned by the
`MaxspeedFactor` unit test) yields (18, 18) = 90 * (0.2, 0.2) — larger than
the value computed without the maxspeed. -/
theorem maxspeed_clamp_refuted :
    vehicleModelStub.getTypeSpeed [Tag.hwSecondary, Tag.unpavedBad]
        ⟨true, false, ⟨Units.Metric, some 90, none⟩⟩ = ⟨18, 18⟩ ∧
    vehicleModelStub.getTypeSpeed [Tag.hwSecondary, Tag.unpavedBad]
        ⟨true, false, Maxspeed.empty⟩ = ⟨16, 14⟩ ∧
    specClampSpeed vehicleModelStub [Tag.hwSecondary, Tag.unpavedBad]
        ⟨true, false, ⟨Units.Metric, some 90, none⟩⟩ = ⟨16, 14⟩ ∧
    ¬ (vehicleModelStub.getTypeSpeed [Tag.hwSecondary, Tag.unpavedBad]
          ⟨true, false, ⟨Units.Metric, some 90, none⟩⟩).weight ≤
        (vehicleModelStub.getTypeSpeed [Tag.hwSecondary, Tag.unpavedBad]
          ⟨true, false, Maxspeed.empty⟩).weight := by
  norm_num +decide [VehicleModelDef.getTypeSpeed, VehicleModelDef.resolveHighwayType,
    VehicleModelDef.getHighwayType, tagCategory, lookupBy, VehicleModelDef.surfaceFactor,
    VehicleModelDef.highwayFactor, VehicleModelDef.baseSpeed, vehicleModelStub, kTestLimits,
    kCarSurface, kDefaultSpeeds, kDefaultFactors, specClampSpeed,
    Maxspeed.activeKmPH, Maxspeed.activeValue, Maxspeed.empty, toSpeedKmPH,
    SpeedKMpH.uniform, SpeedFactor.identity, InOutCitySpeedKMpH.get, InOutCityFactor.get,
    SpeedKMpH.mul_factor_def, List.foldl, min_def]

/-- C1 (amended): when the limit is known for the active direction, the
converted value replaces the base speed in both components and the category
and surface factors are then applied; residential with category factor 0.5,
the paved-good surface (0.8, 0.9) and a posted 60 km/h forward limit in city
yields (24.0, 27.0). -/
theorem maxspeed_replaces_base (m : VehicleModelDef) (tags : List Tag) (p : SpeedParams)
    (c : HighwayType) (v : ℚ)
    (hc : m.resolveHighwayType tags = some c)
    (hv : p.maxspeed.activeKmPH p.forward = some v) :
    m.getTypeSpeed tags p =
      SpeedKMpH.uniform v * m.highwayFactor c p.inCity * m.surfaceFactor tags ∧
    vehicleModelStub.getTypeSpeed [Tag.hwResidential, Tag.pavedGood]
        ⟨true, true, ⟨Units.Metric, some 60, none⟩⟩ = ⟨24, 27⟩ := by
  refine ⟨getTypeSpeed_of_maxspeed m tags p c v hc hv, ?_⟩
  norm_num +decide [VehicleModelDef.getTypeSpeed, VehicleModelDef.resolveHighwayType,
    VehicleModelDef.getHighwayType, tagCategory, lookupBy, VehicleModelDef.surfaceFactor,
    VehicleModelDef.highwayFactor, VehicleModelDef.baseSpeed, vehicleModelStub, kTestLimits,
    kCarSurface, kDefaultSpeeds, kDefaultFactors,
    Maxspeed.activeKmPH, Maxspeed.activeValue, toSpeedKmPH,
    SpeedKMpH.uniform, SpeedFactor.identity, InOutCitySpeedKMpH.get, InOutCityFactor.get,
    SpeedKMpH.mul_factor_def, List.foldl]

/-- Witness for C1 (amended), at the residential/paved-good input with a
posted 60 km/h forward limit in city. -/
theorem maxspeed_replaces_base_witness :
    vehicleModelStub.getTypeSpeed [Tag.hwResidential, Tag.pavedGood]
        ⟨true, true, ⟨Units.Metric, some 60, none⟩⟩ =
      SpeedKMpH.uniform ((60 : ℕ) : ℚ) *
        vehicleModelStub.highwayFactor HighwayType.HighwayResidential true *
        vehicleModelStub.surfaceFactor [Tag.hwResidential, Tag.pavedGood] ∧
    vehicleModelStub.getTypeSpeed [Tag.hwResidential, Tag.pavedGood]
        ⟨true, true, ⟨Units.Metric, some 60, none⟩⟩ = ⟨24, 27⟩ :=
  maxspeed_replaces_base vehicleModelStub [Tag.hwResidential, Tag.pavedGood]
    ⟨true, true, ⟨Units.Metric, some 60, none⟩⟩ HighwayType.HighwayResidential
    ((60 : ℕ) : ℚ) (by decide) rfl

end RoutingCommon

namespace RoutingCommon

/-- C2 counterexample: category resolution is NOT last-match-wins.  On the
tag set with secondary before primary, the spec-worded last-match scan
selects primary, whose in-city base is (90, 90); the engine (pinned by the
`DifferentSpeeds` unit test) resolves secondary and returns (80, 70). -/
theorem last_match_wins_refuted :
    resolveLastWins vehicleModelStub [Tag.hwSecondary, Tag.hwPrimary] =
      some HighwayType.HighwayPrimary ∧
    vehicleModelStub.resolveHighwayType [Tag.hwSecondary, Tag.hwPrimary] =
      some HighwayType.HighwaySecondary ∧
    vehicleModelStub.getTypeSpeed [Tag.hwSecondary, Tag.hwPrimary] paramsInCity = ⟨80, 70⟩ ∧
    vehicleModelStub.baseSpeed HighwayType.HighwayPrimary true = ⟨90, 90⟩ ∧
    (⟨80, 70⟩ : SpeedKMpH) ≠ ⟨90, 90⟩ := by
  norm_num +decide [VehicleModelDef.getTypeSpeed, VehicleModelDef.resolveHighwayType,
    VehicleModelDef.getHighwayType, tagCategory, lookupBy, VehicleModelDef.surfaceFactor,
    VehicleModelDef.highwayFactor, VehicleModelDef.baseSpeed, vehicleModelStub, kTestLimits,
    kCarSurface, kDefaultSpeeds, kDefaultFactors, paramsInCity, resolveLastWins,
    Maxspeed.activeKmPH, Maxspeed.activeValue, Maxspeed.empty, toSpeedKmPH,
    SpeedKMpH.uniform, SpeedFactor.identity, InOutCitySpeedKMpH.get, InOutCityFactor.get,
    SpeedKMpH.mul_factor_def, List.foldl]

/-- C2 (amended): resolution scans the tag collection in its given order and
the FIRST candidate wins: a head tag that is a candidate decides the
category, a head tag that is not leaves the rest to decide; consequently
{secondary, primary} resolves to the secondary base speeds (80/70 in and out
of city) and {oneway, primary, secondary} to the primary base speeds (90/90
in city, 120/120 out of city). -/
theorem first_match_wins :
    (∀ (m : VehicleModelDef) (t : Tag) (ts : List Tag) (c : HighwayType),
        m.getHighwayType t = some c → m.resolveHighwayType (t :: ts) = some c) ∧
    (∀ (m : VehicleModelDef) (t : Tag) (ts : List Tag),
        m.getHighwayType t = none →
          m.resolveHighwayType (t :: ts) = m.resolveHighwayType ts) ∧
    vehicleModelStub.getTypeSpeed [Tag.hwSecondary, Tag.hwPrimary] paramsInCity = ⟨80, 70⟩ ∧
    vehicleModelStub.getTypeSpeed [Tag.hwSecondary, Tag.hwPrimary] paramsOutCity = ⟨80, 70⟩ ∧
    vehicleModelStub.getTypeSpeed [Tag.oneway, Tag.hwPrimary, Tag.hwSecondary] paramsInCity =
      ⟨90, 90⟩ ∧
    vehicleModelStub.getTypeSpeed [Tag.oneway, Tag.hwPrimary, Tag.hwSecondary] paramsOutCity =
      ⟨120, 120⟩ := by
  refine ⟨fun m t ts c h => ?_, fun m t ts h => ?_, ?_, ?_, ?_, ?_⟩ <;>
    first
      | simp [VehicleModelDef.resolveHighwayType, h]
      | norm_num +decide [VehicleModelDef.getTypeSpeed, VehicleModelDef.resolveHighwayType,
          VehicleModelDef.getHighwayType, tagCategory, lookupBy, VehicleModelDef.surfaceFactor,
          VehicleModelDef.highwayFactor, VehicleModelDef.baseSpeed, vehicleModelStub, kTestLimits,
          kCarSurface, kDefaultSpeeds, kDefaultFactors, paramsInCity, paramsOutCity,
          Maxspeed.activeKmPH, Maxspeed.activeValue, Maxspeed.empty, toSpeedKmPH,
          SpeedKMpH.uniform, SpeedFactor.identity, InOutCitySpeedKMpH.get, InOutCityFactor.get,
          SpeedKMpH.mul_factor_def, List.foldl]

/-- Witness for C2 (amended): the head-candidate rule applied to the
secondary-then-primary set, discharging the candidate hypothesis. -/
theorem first_match_wins_witness :
    vehicleModelStub.resolveHighwayType [Tag.hwSecondary, Tag.hwPrimary] =
      some HighwayType.HighwaySecondary :=
  first_match_wins.1 vehicleModelStub Tag.hwSecondary [Tag.hwPrimary]
    HighwayType.HighwaySecondary (by decide)

/-- C3 counterexample: the no-maxspeed result is NOT the base speed times the
surface factor alone.  A plain residential feature in city has base (45, 55)
and identity surface factor, but the engine (pinned by the `Speed` unit
test) returns (22.5, 27.5), because the residential category factor 0.5 also
applies. -/
theorem surface_only_factor_refuted :
    vehicleModelStub.getTypeSpeed [Tag.hwResidential] paramsInCity = ⟨45/2, 55/2⟩ ∧
    vehicleModelStub.baseSpeed HighwayType.HighwayResidential true *
        vehicleModelStub.surfaceFactor [Tag.hwResidential] = ⟨45, 55⟩ ∧
    (⟨45/2, 55/2⟩ : SpeedKMpH) ≠ ⟨45, 55⟩ := by
  norm_num +decide [VehicleModelDef.getTypeSpeed, VehicleModelDef.resolveHighwayType,
    VehicleModelDef.getHighwayType, tagCategory, lookupBy, VehicleModelDef.surfaceFactor,
    VehicleModelDef.highwayFactor, VehicleModelDef.baseSpeed, vehicleModelStub, kTestLimits,
    kCarSurface, kDefaultSpeeds, kDefaultFactors, paramsInCity,
    Maxspeed.activeKmPH, Maxspeed.activeValue, Maxspeed.empty, toSpeedKmPH,
    SpeedKMpH.uniform, SpeedFactor.identity, InOutCitySpeedKMpH.get, InOutCityFactor.get,
    SpeedKMpH.mul_factor_def, List.foldl]

/-- C3 (amended): with a resolved category and no known limit, the result is
the in/out-of-city base speed times the category factor times the surface
factor (identity when no surface tag matches); secondary (80/70, category
factor 1) with paved-good yields (64, 63), with paved-bad (32, 35), with
unpaved-bad (16, 14). -/
theorem surface_and_highway_factor (m : VehicleModelDef) (tags : List Tag) (p : SpeedParams)
    (c : HighwayType)
    (hc : m.resolveHighwayType tags = some c)
    (hv : p.maxspeed.activeKmPH p.forward = none) :
    m.getTypeSpeed tags p =
      m.baseSpeed c p.inCity * m.highwayFactor c p.inCity * m.surfaceFactor tags ∧
    vehicleModelStub.getTypeSpeed [Tag.hwSecondary, Tag.pavedGood] paramsInCity = ⟨64, 63⟩ ∧
    vehicleModelStub.getTypeSpeed [Tag.hwSecondary, Tag.pavedBad] paramsInCity = ⟨32, 35⟩ ∧
    vehicleModelStub.getTypeSpeed [Tag.hwSecondary, Tag.unpavedBad] paramsInCity = ⟨16, 14⟩ := by
  refine ⟨getTypeSpeed_of_no_maxspeed m tags p c hc hv, ?_, ?_, ?_⟩ <;>
    norm_num +decide [VehicleModelDef.getTypeSpeed, VehicleModelDef.resolveHighwayType,
      VehicleModelDef.getHighwayType, tagCategory, lookupBy, VehicleModelDef.surfaceFactor,
      VehicleModelDef.highwayFactor, VehicleModelDef.baseSpeed, vehicleModelStub, kTestLimits,
      kCarSurface, kDefaultSpeeds, kDefaultFactors, paramsInCity,
      Maxspeed.activeKmPH, Maxspeed.activeValue, Maxspeed.empty, toSpeedKmPH,
      SpeedKMpH.uniform, SpeedFactor.identity, InOutCitySpeedKMpH.get, InOutCityFactor.get,
      SpeedKMpH.mul_factor_def, List.foldl]

/-- Witness for C3 (amended), at the secondary/paved-good input in city with
the empty maxspeed. -/
theorem surface_and_highway_factor_witness :
    vehicleModelStub.getTypeSpeed [Tag.hwSecondary, Tag.pavedGood] paramsInCity =
      vehicleModelStub.baseSpeed HighwayType.HighwaySecondary paramsInCity.inCity *
        vehicleModelStub.highwayFactor HighwayType.HighwaySecondary paramsInCity.inCity *
        vehicleModelStub.surfaceFactor [Tag.hwSecondary, Tag.pavedGood] ∧
    vehicleModelStub.getTypeSpeed [Tag.hwSecondary, Tag.pavedGood] paramsInCity = ⟨64, 63⟩ ∧
    vehicleModelStub.getTypeSpeed [Tag.hwSecondary, Tag.pavedBad] paramsInCity = ⟨32, 35⟩ ∧
    vehicleModelStub.getTypeSpeed [Tag.hwSecondary, Tag.unpavedBad] paramsInCity = ⟨16, 14⟩ :=
  surface_and_highway_factor vehicleModelStub [Tag.hwSecondary, Tag.pavedGood] paramsInCity
    HighwayType.HighwaySecondary (by decide) rfl

end RoutingCommon

namespace RoutingCommon

/-- C4: directional maxspeed semantics.  The forward context reads only the
forward value (so an asymmetric limit gives the same forward result as a
forward-only limit); the backward context reads the backward value exactly as
a forward context would read it as a forward limit; a backward value marked
"same as forward" makes the backward context use the forward value; on any
tag set with a resolved category, distinct metric forward and backward values
give distinct results per direction; and the primary/paved-good out-of-city
query with limits 90/70 yields (72, 81) forward and (56, 63) backward. -/
theorem maxspeed_directional :
    (∀ (m : VehicleModelDef) (tags : List Tag) (city : Bool) (u : Units) (f b : ℕ),
        m.getTypeSpeed tags ⟨true, city, ⟨u, some f, some b⟩⟩ =
          m.getTypeSpeed tags ⟨true, city, ⟨u, some f, none⟩⟩) ∧
    (∀ (m : VehicleModelDef) (tags : List Tag) (city : Bool) (u : Units) (f b : ℕ),
        m.getTypeSpeed tags ⟨false, city, ⟨u, some f, some b⟩⟩ =
          m.getTypeSpeed tags ⟨true, city, ⟨u, some b, none⟩⟩) ∧
    (∀ (m : VehicleModelDef) (tags : List Tag) (city : Bool) (u : Units) (f : ℕ),
        m.getTypeSpeed tags ⟨false, city, ⟨u, some f, none⟩⟩ =
          m.getTypeSpeed tags ⟨true, city, ⟨u, some f, none⟩⟩) ∧
    (∀ (tags : List Tag) (city : Bool) (f b : ℕ) (c : HighwayType),
        vehicleModelStub.resolveHighwayType tags = some c → f ≠ b →
        vehicleModelStub.getTypeSpeed tags ⟨true, city, ⟨Units.Metric, some f, some b⟩⟩ ≠
          vehicleModelStub.getTypeSpeed tags ⟨false, city, ⟨Units.Metric, some f, some b⟩⟩) ∧
    vehicleModelStub.getTypeSpeed [Tag.hwPrimary, Tag.pavedGood]
        ⟨true, false, ⟨Units.Metric, some 90, some 70⟩⟩ = ⟨72, 81⟩ ∧
    vehicleModelStub.getTypeSpeed [Tag.hwPrimary, Tag.pavedGood]
        ⟨false, false, ⟨Units.Metric, some 90, some 70⟩⟩ = ⟨56, 63⟩ := by
  refine ⟨fun m tags city u f b => getTypeSpeed_congr m tags _ _ rfl rfl,
    fun m tags city u f b => getTypeSpeed_congr m tags _ _ rfl rfl,
    fun m tags city u f => getTypeSpeed_congr m tags _ _ rfl rfl,
    fun tags city f b c hc hne => ?_, ?_, ?_⟩
  · have h1 := getTypeSpeed_of_maxspeed vehicleModelStub tags
      ⟨true, city, ⟨Units.Metric, some f, some b⟩⟩ c ((f : ℕ) : ℚ) hc rfl
    have h2 := getTypeSpeed_of_maxspeed vehicleModelStub tags
      ⟨false, city, ⟨Units.Metric, some f, some b⟩⟩ c ((b : ℕ) : ℚ) hc rfl
    rw [h1, h2]
    intro heq
    have hw := congrArg SpeedKMpH.weight heq
    simp only [SpeedKMpH.mul_factor_def, SpeedKMpH.uniform] at hw
    have hsp := stub_surfaceFactor_pos tags
    have hhp := stub_highwayFactor_pos c city
    have h3 := mul_right_cancel₀ (ne_of_gt hsp.1) hw
    have h4 := mul_right_cancel₀ (ne_of_gt hhp.1) h3
    exact hne (Nat.cast_injective h4)
  all_goals
    norm_num +decide [VehicleModelDef.getTypeSpeed, VehicleModelDef.resolveHighwayType,
      VehicleModelDef.getHighwayType, tagCategory, lookupBy, VehicleModelDef.surfaceFactor,
      VehicleModelDef.highwayFactor, VehicleModelDef.baseSpeed, vehicleModelStub, kTestLimits,
      kCarSurface, kDefaultSpeeds, kDefaultFactors,
      Maxspeed.activeKmPH, Maxspeed.activeValue, toSpeedKmPH,
      SpeedKMpH.uniform, SpeedFactor.identity, InOutCitySpeedKMpH.get, InOutCityFactor.get,
      SpeedKMpH.mul_factor_def, List.foldl]

/-- Witness for C4: the distinct-per-direction part applied to the
primary/paved-good set out of city with metric limits 90 forward and 70
backward. -/
theorem maxspeed_directional_witness :
    vehicleModelStub.getTypeSpeed [Tag.hwPrimary, Tag.pavedGood]
        ⟨true, false, ⟨Units.Metric, some 90, some 70⟩⟩ ≠
      vehicleModelStub.getTypeSpeed [Tag.hwPrimary, Tag.pavedGood]
        ⟨false, false, ⟨Units.Metric, some 90, some 70⟩⟩ :=
  maxspeed_directional.2.2.2.1 [Tag.hwPrimary, Tag.pavedGood] false 90 70
    HighwayType.HighwayPrimary (by decide) (by decide)

end RoutingCommon
